import Mathlib

/-!
Shallow embedding of the StartAnime service worker (`sw.js`) and the
page-side component loader (`assets/js/components.js`), with theorems
checking the repository's specification against the code.

Strings are modelled as Lean `String`s; the JavaScript string operations
used by the code (`String.prototype.includes`, suffix tests, the
`{{ key }}` placeholder regex) are embedded as executable functions over
character lists.  Network and cache effects are made explicit: the
network is a function from URL to an optional response (`none` models a
rejected fetch), caches are association lists, and each handler returns
its outcome together with the updated caches and the number of network
calls it performed.
-/

namespace StartAnime

/-- JavaScript `pat` is a prefix of `l` (character-list version of
`String.prototype.startsWith`). -/
def startsWithList : List Char → List Char → Bool
  | [], _ => true
  | _ :: _, [] => false
  | p :: ps, c :: cs => p = c && startsWithList ps cs

/-- JavaScript `String.prototype.includes`: `pat` occurs as a contiguous
substring of `l`. -/
def containsList (pat : List Char) : List Char → Bool
  | [] => startsWithList pat []
  | c :: cs => startsWithList pat (c :: cs) || containsList pat cs

/-- Embedding of `url.includes(ext)` from `sw.js`. -/
def includesStr (s pat : String) : Bool :=
  containsList pat.toList s.toList

/-- Embedding of a suffix test (`String.prototype.endsWith`), used only to
render the specification's "suffix membership" matching policy. -/
def endsWithStr (s pat : String) : Bool :=
  startsWithList pat.toList.reverse s.toList.reverse

/-- The `staticExtensions` array of `isStaticFile` in `sw.js`. -/
def staticExtensions : List String := [".html", ".css", ".js", ".woff2", ".svg"]

/-- The `imageExtensions` array of `isImage` in `sw.js`. -/
def imageExtensions : List String := [".jpg", ".jpeg", ".png", ".webp", ".gif"]

/-- Embedding of `isStaticFile` from `sw.js`:
`staticExtensions.some(ext => request.url.includes(ext))`. -/
def isStaticFile (url : String) : Bool :=
  staticExtensions.any (fun ext => includesStr url ext)

/-- Embedding of `isImage` from `sw.js`:
`imageExtensions.some(ext => request.url.includes(ext))`. -/
def isImage (url : String) : Bool :=
  imageExtensions.any (fun ext => includesStr url ext)

/-- Embedding of `isDataFile` from `sw.js`: `request.url.includes('.json')`. -/
def isDataFile (url : String) : Bool :=
  includesStr url ".json"

/-- The four request categories of the specification's data model. -/
inductive RequestClass where
  | Static
  | Image
  | Data
  | Dynamic
deriving DecidableEq, Repr

/-- Embedding of the classification chain of the fetch event listener in
`sw.js`: `isStaticFile`, else `isImage`, else `isDataFile`, else dynamic. -/
def classifyRequest (url : String) : RequestClass :=
  if isStaticFile url then RequestClass.Static
  else if isImage url then RequestClass.Image
  else if isDataFile url then RequestClass.Data
  else RequestClass.Dynamic

/-- The four handlers the fetch event listener can dispatch to. -/
inductive Handler where
  | staticH
  | imageH
  | dataH
  | dynamicH
deriving DecidableEq, Repr

/-- A request as seen by the fetch event listener: method and URL. -/
structure Request where
  method : String
  url : String
deriving DecidableEq, Repr

/-- Embedding of the fetch event listener's routing in `sw.js`: non-GET
requests are not intercepted (`none`); GET requests are dispatched to the
handler selected by the `isStaticFile` / `isImage` / `isDataFile` chain. -/
def routeFetch (r : Request) : Option Handler :=
  if r.method ≠ "GET" then none
  else some (match classifyRequest r.url with
    | RequestClass.Static => Handler.staticH
    | RequestClass.Image => Handler.imageH
    | RequestClass.Data => Handler.dataH
    | RequestClass.Dynamic => Handler.dynamicH)

/-- Rendering of the specification's stated matching policy ("test URL
string for suffix membership in ordered extension sets"), for comparison
with `classifyRequest` as embedded from the code. -/
def classifySpecSuffix (url : String) : RequestClass :=
  if staticExtensions.any (fun ext => endsWithStr url ext) then RequestClass.Static
  else if imageExtensions.any (fun ext => endsWithStr url ext) then RequestClass.Image
  else if endsWithStr url ".json" then RequestClass.Data
  else RequestClass.Dynamic

theorem startsWithList_append (as bs l : List Char)
    (h : startsWithList (as ++ bs) l = true) : startsWithList as l = true := by
  induction as generalizing l with
  | nil => rfl
  | cons a as ih =>
    cases l with
    | nil => simp [startsWithList] at h
    | cons c cs =>
      simp only [List.cons_append, startsWithList, Bool.and_eq_true] at h ⊢
      exact ⟨h.1, ih cs h.2⟩

theorem containsList_mono (p q : List Char)
    (hpq : ∀ l, startsWithList p l = true → startsWithList q l = true)
    (l : List Char) (h : containsList p l = true) : containsList q l = true := by
  induction l with
  | nil => exact hpq [] h
  | cons c cs ih =>
    simp only [containsList, Bool.or_eq_true] at h ⊢
    cases h with
    | inl h => exact Or.inl (hpq _ h)
    | inr h => exact Or.inr (ih h)

theorem includes_json_implies_js (s : String)
    (h : includesStr s ".json" = true) : includesStr s ".js" = true := by
  refine containsList_mono _ _ (fun l hl => ?_) _ h
  have : (".json").toList = (".js").toList ++ ['o', 'n'] := by decide
  rw [this] at hl
  exact startsWithList_append _ _ _ hl

theorem isDataFile_implies_isStaticFile (url : String)
    (h : isDataFile url = true) : isStaticFile url = true := by
  have hjs : includesStr url ".js" = true := includes_json_implies_js url h
  simp only [isStaticFile, List.any_eq_true]
  exact ⟨".js", by decide, hjs⟩

theorem classifyRequest_ne_Data (url : String) :
    classifyRequest url ≠ RequestClass.Data := by
  unfold classifyRequest
  by_cases hs : isStaticFile url = true
  · simp [hs]
  · have hd : isDataFile url = false := by
      cases hdf : isDataFile url with
      | false => rfl
      | true => exact absurd (isDataFile_implies_isStaticFile url hdf) hs
    simp only [Bool.not_eq_true] at hs
    by_cases hi : isImage url = true
    · simp [hs, hi]
    · simp only [Bool.not_eq_true] at hi
      simp [hs, hi, hd]

/-- C1: every GET request whose URL contains the substring `.json` is
classified Static (because `.json` contains `.js` and the static test runs
first, with substring membership), so the fetch router dispatches such
requests to the static handler; the Data classification and the data-file
handler are unreachable from the fetch routing path. -/
theorem c1_json_requests_unreachable_data_handler :
    (∀ r : Request, r.method = "GET" → includesStr r.url ".json" = true →
      routeFetch r = some Handler.staticH) ∧
    (∀ r : Request, routeFetch r ≠ some Handler.dataH) ∧
    (∀ url : String, classifyRequest url ≠ RequestClass.Data) := by
  refine ⟨?_, ?_, classifyRequest_ne_Data⟩
  · intro r hm hj
    have hs : isStaticFile r.url = true := isDataFile_implies_isStaticFile r.url hj
    simp [routeFetch, hm, classifyRequest, hs]
  · intro r
    unfold routeFetch
    by_cases hm : r.method ≠ "GET"
    · simp [hm]
    · simp only [hm, if_false]
      intro hcontra
      have := Option.some.inj hcontra
      cases hcl : classifyRequest r.url with
      | Data => exact classifyRequest_ne_Data r.url hcl
      | Static => rw [hcl] at this; exact absurd this (by simp)
      | Image => rw [hcl] at this; exact absurd this (by simp)
      | Dynamic => rw [hcl] at this; exact absurd this (by simp)

/-- C1 witness: the concrete GET request for `/data/anime-list.json` is
routed to the static handler and not to the data handler. -/
theorem c1_witness :
    routeFetch ⟨"GET", "/data/anime-list.json"⟩ = some Handler.staticH ∧
    routeFetch ⟨"GET", "/data/anime-list.json"⟩ ≠ some Handler.dataH :=
  ⟨c1_json_requests_unreachable_data_handler.1 ⟨"GET", "/data/anime-list.json"⟩
      rfl (by decide),
    c1_json_requests_unreachable_data_handler.2.1 ⟨"GET", "/data/anime-list.json"⟩⟩

/-- C2: the code's classifier diverges from the specification's suffix
matching policy at `/data/anime-list.json`: the URL ends with `.json` and
matches no static or image suffix, so the specification's policy yields
Data, but the code's substring-based chain yields Static. -/
theorem c2_classifier_diverges_from_spec :
    classifyRequest "/data/anime-list.json" = RequestClass.Static ∧
    classifySpecSuffix "/data/anime-list.json" = RequestClass.Data ∧
    endsWithStr "/data/anime-list.json" ".json" = true ∧
    staticExtensions.all (fun ext =>
      !(endsWithStr "/data/anime-list.json" ext)) = true ∧
    imageExtensions.all (fun ext =>
      !(endsWithStr "/data/anime-list.json" ext)) = true := by
  refine ⟨?_, ?_, ?_, ?_, ?_⟩ <;> decide

/-- A stored or fetched response: success flag (`Response.ok`), body and
Content-Type header, the parts of the platform `Response` the code
observes. -/
structure Response where
  ok : Bool
  body : String
  contentType : Option String
deriving DecidableEq, Repr

/-- The network, as seen through `fetch`: `none` models a rejected fetch
(network failure); `some r` a settled response, successful or not. -/
def Network : Type := String → Option Response

/-- The `STATIC_FILES` manifest of `sw.js`. -/
def STATIC_FILES : List String :=
  ["/", "/index.html", "/recommend.html", "/assets/css/main.css",
    "/assets/css/mobile-optimizations.css", "/assets/css/performance.css",
    "/assets/css/recomendations.css", "/assets/css/animations.css",
    "/assets/css/components.css", "/assets/js/main.js",
    "/assets/js/recommendations.js", "/assets/js/animations.js",
    "/assets/js/utils.js", "/assets/fonts/Inter-Regular.woff2",
    "/assets/fonts/Inter-Medium.woff2", "/assets/fonts/Inter-Bold.woff2",
    "/assets/images/ui/logo.svg", "/assets/images/ui/arrow-right.svg",
    "/assets/images/ui/star.svg", "/data/anime-list.json",
    "/data/genres.json", "/data/recommendations.json"]

/-- The `STATIC_CACHE` bucket name of `sw.js`. -/
def STATIC_CACHE : String := "startanime-static-v1.0.0"

/-- The `DYNAMIC_CACHE` bucket name of `sw.js`. -/
def DYNAMIC_CACHE : String := "startanime-dynamic-v1.0.0"

/-- The `IMAGE_CACHE` bucket name of `sw.js`. -/
def IMAGE_CACHE : String := "startanime-images-v1.0.0"

/-- Whether `net` fails to deliver a successful response for `u` (a rejected
fetch or a response with `ok` false): the condition under which
`cache.addAll` rejects for that URL. -/
def fetchFailB (net : Network) (u : String) : Bool :=
  match net u with
  | none => true
  | some r => !r.ok

/-- Embedding of `cache.addAll(urls)`: fetch every URL; succeed with all
entries when every fetch delivers a successful response, otherwise reject.
The batch is modelled as atomic: on rejection no entries are produced. -/
def addAllFetch (net : Network) : List String → Except Unit (List (String × Response))
  | [] => Except.ok []
  | u :: us =>
    match net u with
    | none => Except.error ()
    | some r =>
      if r.ok then
        match addAllFetch net us with
        | Except.ok rest => Except.ok ((u, r) :: rest)
        | Except.error e => Except.error e
      else Except.error ()

/-- Observable outcome of the install event listener of `sw.js`: whether the
promise handed to `event.waitUntil` ends fulfilled, the resulting static
bucket, whether `self.skipWaiting()` ran, and whether the failure path
logged an error. -/
structure InstallOutcome where
  promiseResolved : Bool
  staticBucket : List (String × Response)
  skipWaitingCalled : Bool
  errorLogged : Bool
deriving DecidableEq, Repr

/-- Embedding of the install event listener of `sw.js`: open the static
bucket, `addAll` the manifest, then `skipWaiting`; the trailing `.catch`
logs the error and yields a fulfilled promise (it does not re-throw), so
the `waitUntil` promise resolves on both branches. -/
def installEvent (net : Network) : InstallOutcome :=
  match addAllFetch net STATIC_FILES with
  | Except.ok entries =>
    { promiseResolved := true, staticBucket := entries,
      skipWaitingCalled := true, errorLogged := false }
  | Except.error _ =>
    { promiseResolved := true, staticBucket := [],
      skipWaitingCalled := false, errorLogged := true }

/-- Embedding of the activate event listener's predicate in `sw.js`: a
bucket name is current when it equals one of the three version-qualified
bucket names. -/
def isCurrentCacheName (n : String) : Bool :=
  n == STATIC_CACHE || n == DYNAMIC_CACHE || n == IMAGE_CACHE

/-- The bucket names the activate event listener of `sw.js` deletes. -/
def activateDeletedCaches (names : List String) : List String :=
  names.filter (fun n => !(isCurrentCacheName n))

/-- The bucket names the activate event listener of `sw.js` retains. -/
def activateRetainedCaches (names : List String) : List String :=
  names.filter (fun n => isCurrentCacheName n)

/-- The three cache buckets of `sw.js`, each an association list from URL to
stored response; the head entry shadows older ones, matching `cache.put`
overwrite semantics. -/
structure Caches where
  staticB : List (String × Response)
  dynamicB : List (String × Response)
  imageB : List (String × Response)
deriving DecidableEq, Repr

/-- Embedding of `caches.match(url)` with no cache name: search every
bucket for the request identity. -/
def matchAllCaches (c : Caches) (url : String) : Option Response :=
  match c.staticB.lookup url with
  | some r => some r
  | none =>
    match c.dynamicB.lookup url with
    | some r => some r
    | none => c.imageB.lookup url

/-- Embedding of `cache.put(request, response)` on one bucket. -/
def putCache (b : List (String × Response)) (url : String) (r : Response) :
    List (String × Response) :=
  (url, r) :: b

/-- What a handler hands back to `event.respondWith`: a response, no
response at all (`undefined`), or a re-thrown error. -/
inductive FetchOutcome where
  | resp (r : Response)
  | noResp
  | thrown
deriving DecidableEq, Repr

/-- Result of running a handler: its outcome, the caches afterwards, and
how many `fetch` calls it made. -/
structure HandlerResult where
  outcome : FetchOutcome
  caches : Caches
  fetchCalls : Nat
deriving DecidableEq, Repr

/-- Embedding of `handleStaticFile` from `sw.js`: cache first; on miss fetch,
store successful responses in the static bucket; on a rejected fetch return
the cached offline page for `.html` URLs and re-throw otherwise. -/
def handleStaticFile (req : String) (c : Caches) (net : Network) : HandlerResult :=
  match matchAllCaches c req with
  | some cached => ⟨FetchOutcome.resp cached, c, 0⟩
  | none =>
    match net req with
    | some netResp =>
      if netResp.ok then
        ⟨FetchOutcome.resp netResp,
          { c with staticB := putCache c.staticB req netResp }, 1⟩
      else ⟨FetchOutcome.resp netResp, c, 1⟩
    | none =>
      if includesStr req ".html" then
        match matchAllCaches c "/offline.html" with
        | some off => ⟨FetchOutcome.resp off, c, 1⟩
        | none => ⟨FetchOutcome.noResp, c, 1⟩
      else ⟨FetchOutcome.thrown, c, 1⟩

/-- Embedding of `handleImage` from `sw.js`: cache first; on miss fetch,
store successful responses in the image bucket; on a rejected fetch return
the result of `caches.match('/assets/images/placeholder.jpg')`. -/
def handleImage (req : String) (c : Caches) (net : Network) : HandlerResult :=
  match matchAllCaches c req with
  | some cached => ⟨FetchOutcome.resp cached, c, 0⟩
  | none =>
    match net req with
    | some netResp =>
      if netResp.ok then
        ⟨FetchOutcome.resp netResp,
          { c with imageB := putCache c.imageB req netResp }, 1⟩
      else ⟨FetchOutcome.resp netResp, c, 1⟩
    | none =>
      match matchAllCaches c "/assets/images/placeholder.jpg" with
      | some ph => ⟨FetchOutcome.resp ph, c, 1⟩
      | none => ⟨FetchOutcome.noResp, c, 1⟩

/-- The response `handleDataFile` synthesizes when both cache and network
fail: `new Response(JSON.stringify(\x7b error: 'Data unavailable offline' \x7d),
\x7b headers: \x7b 'Content-Type': 'application/json' \x7d \x7d)`, a status-200
(`ok`) response. -/
def offlineDataResponse : Response :=
  { ok := true,
    body := "\x7b\"error\":\"Data unavailable offline\"\x7d",
    contentType := some "application/json" }

/-- Embedding of `handleDataFile` from `sw.js`: cache first; on miss fetch,
store successful responses in the dynamic bucket; on a rejected fetch
return the synthesized offline JSON error response. -/
def handleDataFile (req : String) (c : Caches) (net : Network) : HandlerResult :=
  match matchAllCaches c req with
  | some cached => ⟨FetchOutcome.resp cached, c, 0⟩
  | none =>
    match net req with
    | some netResp =>
      if netResp.ok then
        ⟨FetchOutcome.resp netResp,
          { c with dynamicB := putCache c.dynamicB req netResp }, 1⟩
      else ⟨FetchOutcome.resp netResp, c, 1⟩
    | none => ⟨FetchOutcome.resp offlineDataResponse, c, 1⟩

/-- Embedding of `handleDynamicRequest` from `sw.js`: network first, storing
successful responses in the dynamic bucket; on a rejected fetch fall back to
`caches.match(request)` over every bucket, re-throwing when that misses. -/
def handleDynamicRequest (req : String) (c : Caches) (net : Network) : HandlerResult :=
  match net req with
  | some netResp =>
    if netResp.ok then
      ⟨FetchOutcome.resp netResp,
        { c with dynamicB := putCache c.dynamicB req netResp }, 1⟩
    else ⟨FetchOutcome.resp netResp, c, 1⟩
  | none =>
    match matchAllCaches c req with
    | some cached => ⟨FetchOutcome.resp cached, c, 1⟩
    | none => ⟨FetchOutcome.thrown, c, 1⟩

/-- The network in which every fetch rejects. -/
def netAllFail : Network := fun _ => none

/-- Caches with no entries in any bucket. -/
def emptyCaches : Caches := { staticB := [], dynamicB := [], imageB := [] }

theorem addAllFetch_error_of_fail (net : Network) (urls : List String)
    (h : ∃ u ∈ urls, fetchFailB net u = true) :
    addAllFetch net urls = Except.error () := by
  induction urls with
  | nil => simp at h
  | cons u us ih =>
    obtain ⟨v, hv, hfail⟩ := h
    simp only [List.mem_cons] at hv
    unfold addAllFetch
    cases hnu : net u with
    | none => rfl
    | some r =>
      cases hv with
      | inl hv =>
        subst hv
        unfold fetchFailB at hfail
        rw [hnu] at hfail
        simp only [Bool.not_eq_true'] at hfail
        simp [hfail]
      | inr hv =>
        by_cases hok : r.ok = true
        · rw [ih ⟨v, hv, hfail⟩]
          simp [hok]
        · simp only [Bool.not_eq_true] at hok
          simp [hok]

/-- C3 counterexample: with every manifest fetch rejecting, the promise the
install listener hands to `event.waitUntil` still resolves (the trailing
`.catch` only logs), so installation does not abort; the failure leaves its
trace only in the error log, and `skipWaiting` is skipped. -/
theorem c3_counterexample :
    (installEvent netAllFail).promiseResolved = true ∧
    (installEvent netAllFail).skipWaitingCalled = false ∧
    (installEvent netAllFail).errorLogged = true := by
  refine ⟨rfl, rfl, rfl⟩

/-- C3 (amended): if fetching any manifest URL fails during install, the
error is caught by the install chain's `.catch` and only logged:
`skipWaiting` is not called and the static bucket stays unpopulated, but
the completion promise handed to `waitUntil` resolves — for every network
it resolves — so installation completes rather than aborting and the
worker is not left failed for that version. -/
theorem c3_install_failure_swallowed (net : Network)
    (h : ∃ u ∈ STATIC_FILES, fetchFailB net u = true) :
    (∀ m : Network, (installEvent m).promiseResolved = true) ∧
    (installEvent net).skipWaitingCalled = false ∧
    (installEvent net).errorLogged = true ∧
    (installEvent net).staticBucket = [] := by
  have he := addAllFetch_error_of_fail net STATIC_FILES h
  refine ⟨?_, ?_, ?_, ?_⟩
  · intro m
    unfold installEvent
    cases addAllFetch m STATIC_FILES <;> rfl
  all_goals simp [installEvent, he]

/-- C3 witness: the amended statement at the concrete all-failing network,
with the failing manifest URL `/`. -/
theorem c3_witness :
    (installEvent netAllFail).promiseResolved = true ∧
    (installEvent netAllFail).skipWaitingCalled = false ∧
    (installEvent netAllFail).staticBucket = [] := by
  have h := c3_install_failure_swallowed netAllFail
    ⟨"/", List.mem_cons_self _ _, rfl⟩
  exact ⟨h.1 netAllFail, h.2.1, h.2.2.2⟩

/-- C4: whenever the request identity is present in the caches, each of the
three cache-first handlers returns exactly the stored entry, performs zero
fetch calls, and leaves every cache bucket unchanged. -/
theorem c4_cache_hit_no_network (req : String) (c : Caches) (net : Network)
    (r : Response) (h : matchAllCaches c req = some r) :
    handleStaticFile req c net = ⟨FetchOutcome.resp r, c, 0⟩ ∧
    handleImage req c net = ⟨FetchOutcome.resp r, c, 0⟩ ∧
    handleDataFile req c net = ⟨FetchOutcome.resp r, c, 0⟩ := by
  unfold handleStaticFile handleImage handleDataFile
  rw [h]
  exact ⟨rfl, rfl, rfl⟩

/-- A concrete cached HTML response. -/
def respIndexHtml : Response :=
  { ok := true, body := "<html>index</html>", contentType := some "text/html" }

/-- Caches holding only `/index.html` in the static bucket. -/
def cachesWithIndex : Caches :=
  { staticB := [("/index.html", respIndexHtml)], dynamicB := [], imageB := [] }

/-- C4 witness: the cache-hit property at the concrete cached request
`/index.html`, where the network would reject every fetch. -/
theorem c4_witness :
    handleStaticFile "/index.html" cachesWithIndex netAllFail =
      ⟨FetchOutcome.resp respIndexHtml, cachesWithIndex, 0⟩ ∧
    handleImage "/index.html" cachesWithIndex netAllFail =
      ⟨FetchOutcome.resp respIndexHtml, cachesWithIndex, 0⟩ ∧
    handleDataFile "/index.html" cachesWithIndex netAllFail =
      ⟨FetchOutcome.resp respIndexHtml, cachesWithIndex, 0⟩ :=
  c4_cache_hit_no_network "/index.html" cachesWithIndex netAllFail respIndexHtml rfl

/-- C5: activation deletes exactly the existing bucket names that differ
from all three current version-qualified bucket names and retains exactly
the current ones; on the concrete bucket list of the specification it
deletes `startanime-static-v0.9.0` and `other-app-cache` and retains
`startanime-static-v1.0.0`. -/
theorem c5_activation_eviction :
    (∀ (names : List String) (n : String),
      n ∈ activateDeletedCaches names ↔ n ∈ names ∧ isCurrentCacheName n = false) ∧
    (∀ (names : List String) (n : String),
      n ∈ activateRetainedCaches names ↔ n ∈ names ∧ isCurrentCacheName n = true) ∧
    activateDeletedCaches
        ["startanime-static-v1.0.0", "startanime-static-v0.9.0", "other-app-cache"] =
      ["startanime-static-v0.9.0", "other-app-cache"] ∧
    activateRetainedCaches
        ["startanime-static-v1.0.0", "startanime-static-v0.9.0", "other-app-cache"] =
      ["startanime-static-v1.0.0"] := by
  refine ⟨?_, ?_, by decide, by decide⟩
  · intro names n
    simp [activateDeletedCaches, List.mem_filter]
  · intro names n
    simp [activateRetainedCaches, List.mem_filter]

/-- A concrete cached response for the root URL. -/
def respRoot : Response :=
  { ok := true, body := "<html>root</html>", contentType := some "text/html" }

/-- Caches holding only `/` in the static bucket, as the install manifest
produces (the manifest lists `/`, which classifies as Dynamic). -/
def cachesRootStatic : Caches :=
  { staticB := [("/", respRoot)], dynamicB := [], imageB := [] }

/-- C6 counterexample: `/` is classified Dynamic and has no entry in the
dynamic bucket; with the network rejecting, `handleDynamicRequest` returns
the static bucket's entry rather than propagating the network error — the
fallback lookup is `caches.match` across every bucket, not the dynamic
bucket alone. -/
theorem c6_counterexample :
    classifyRequest "/" = RequestClass.Dynamic ∧
    cachesRootStatic.dynamicB.lookup "/" = none ∧
    handleDynamicRequest "/" cachesRootStatic netAllFail =
      ⟨FetchOutcome.resp respRoot, cachesRootStatic, 1⟩ := by
  refine ⟨by decide, rfl, rfl⟩

/-- C6 (amended): dynamic requests are network-first; a successful network
response is written through into the dynamic bucket and returned; on a
rejected fetch the handler falls back to a lookup across every cache
bucket — not the dynamic bucket alone — returning the entry when found in
any bucket and re-throwing the network error only when no bucket holds the
request identity. -/
theorem c6_dynamic_network_first (req : String) (c : Caches) (net : Network) :
    (∀ r : Response, net req = some r → r.ok = true →
      handleDynamicRequest req c net =
        ⟨FetchOutcome.resp r, { c with dynamicB := putCache c.dynamicB req r }, 1⟩) ∧
    (∀ r : Response, net req = none → matchAllCaches c req = some r →
      handleDynamicRequest req c net = ⟨FetchOutcome.resp r, c, 1⟩) ∧
    (net req = none → matchAllCaches c req = none →
      handleDynamicRequest req c net = ⟨FetchOutcome.thrown, c, 1⟩) := by
  refine ⟨?_, ?_, ?_⟩
  · intro r hnet hok
    unfold handleDynamicRequest
    rw [hnet]
    simp [hok]
  · intro r hnet hcache
    unfold handleDynamicRequest
    rw [hnet, hcache]
  · intro hnet hcache
    unfold handleDynamicRequest
    rw [hnet, hcache]

/-- A network serving only the URL `/api/x`. -/
def netApiOnly : Network :=
  fun u => if u = "/api/x" then some respRoot else none

/-- C6 witness: the amended statement at concrete inputs — write-through on
network success, all-bucket fallback on failure, re-throw on a complete
miss. -/
theorem c6_witness :
    handleDynamicRequest "/api/x" emptyCaches netApiOnly =
      ⟨FetchOutcome.resp respRoot,
        { emptyCaches with dynamicB := putCache emptyCaches.dynamicB "/api/x" respRoot }, 1⟩ ∧
    handleDynamicRequest "/" cachesRootStatic netAllFail =
      ⟨FetchOutcome.resp respRoot, cachesRootStatic, 1⟩ ∧
    handleDynamicRequest "/api/x" emptyCaches netAllFail =
      ⟨FetchOutcome.thrown, emptyCaches, 1⟩ :=
  ⟨(c6_dynamic_network_first "/api/x" emptyCaches netApiOnly).1 respRoot rfl rfl,
    (c6_dynamic_network_first "/" cachesRootStatic netAllFail).2.1 respRoot rfl rfl,
    (c6_dynamic_network_first "/api/x" emptyCaches netAllFail).2.2 rfl rfl⟩

/-- C7 counterexample: with nothing cached anywhere — in particular no
placeholder, which the install manifest never stores — an image request
that misses the cache and whose fetch rejects yields no response at all,
not a successful placeholder response. -/
theorem c7_counterexample :
    classifyRequest "/a.png" = RequestClass.Image ∧
    handleImage "/a.png" emptyCaches netAllFail =
      ⟨FetchOutcome.noResp, emptyCaches, 1⟩ ∧
    ("/assets/images/placeholder.jpg" ∈ STATIC_FILES) = False := by
  refine ⟨by decide, rfl, by simp [STATIC_FILES]⟩

/-- C7 (amended): when an image request misses the cache and its fetch
rejects, the handler returns the result of a `caches.match` lookup for
`/assets/images/placeholder.jpg` across every bucket — the cached
placeholder when one is stored, and no response otherwise; the network
failure is swallowed, never re-thrown. -/
theorem c7_image_placeholder_fallback (req : String) (c : Caches) (net : Network)
    (hmiss : matchAllCaches c req = none) (hnet : net req = none) :
    handleImage req c net =
      (match matchAllCaches c "/assets/images/placeholder.jpg" with
        | some ph => ⟨FetchOutcome.resp ph, c, 1⟩
        | none => ⟨FetchOutcome.noResp, c, 1⟩) ∧
    (handleImage req c net).outcome ≠ FetchOutcome.thrown := by
  have h1 : handleImage req c net =
      (match matchAllCaches c "/assets/images/placeholder.jpg" with
        | some ph => ⟨FetchOutcome.resp ph, c, 1⟩
        | none => ⟨FetchOutcome.noResp, c, 1⟩) := by
    unfold handleImage
    rw [hmiss, hnet]
  refine ⟨h1, ?_⟩
  rw [h1]
  cases matchAllCaches c "/assets/images/placeholder.jpg" <;> simp

/-- The concrete cached placeholder image response. -/
def placeholderResp : Response :=
  { ok := true, body := "jpeg-bytes", contentType := some "image/jpeg" }

/-- Caches holding only the placeholder image in the image bucket. -/
def cachesWithPlaceholder : Caches :=
  { staticB := [], dynamicB := [],
    imageB := [("/assets/images/placeholder.jpg", placeholderResp)] }

/-- C7 witness: the amended statement at a concrete image request, with the
placeholder present in the image bucket. -/
theorem c7_witness :
    handleImage "/b.png" cachesWithPlaceholder netAllFail =
      ⟨FetchOutcome.resp placeholderResp, cachesWithPlaceholder, 1⟩ ∧
    (handleImage "/b.png" cachesWithPlaceholder netAllFail).outcome ≠
      FetchOutcome.thrown := by
  have h := c7_image_placeholder_fallback "/b.png" cachesWithPlaceholder netAllFail rfl rfl
  exact ⟨h.1.trans rfl, h.2⟩

/-- C8: for every request that misses the cache and whose fetch rejects,
`handleDataFile` synthesizes and returns a successful response whose body
is the JSON object with key `error` and value `Data unavailable offline`
and whose Content-Type is `application/json`, leaving the caches unchanged
and never re-throwing the network failure. -/
theorem c8_data_offline_json (req : String) (c : Caches) (net : Network)
    (hmiss : matchAllCaches c req = none) (hnet : net req = none) :
    handleDataFile req c net = ⟨FetchOutcome.resp offlineDataResponse, c, 1⟩ ∧
    offlineDataResponse.ok = true ∧
    offlineDataResponse.body = "\x7b\"error\":\"Data unavailable offline\"\x7d" ∧
    offlineDataResponse.contentType = some "application/json" ∧
    (handleDataFile req c net).outcome ≠ FetchOutcome.thrown := by
  have h1 : handleDataFile req c net =
      ⟨FetchOutcome.resp offlineDataResponse, c, 1⟩ := by
    unfold handleDataFile
    rw [hmiss, hnet]
  refine ⟨h1, rfl, rfl, rfl, ?_⟩
  rw [h1]
  simp

/-- C8 witness: the offline JSON fallback at a concrete data request with
empty caches and an all-failing network. -/
theorem c8_witness :
    handleDataFile "/data/anime-list.json" emptyCaches netAllFail =
      ⟨FetchOutcome.resp offlineDataResponse, emptyCaches, 1⟩ ∧
    offlineDataResponse.contentType = some "application/json" := by
  have h := c8_data_offline_json "/data/anime-list.json" emptyCaches netAllFail rfl rfl
  exact ⟨h.1, h.2.2.2.1⟩

/-- A page-context fetch settled with a response: success flag and body
text, the parts `loadComponent` observes. -/
structure FetchResult where
  ok : Bool
  body : String
deriving DecidableEq, Repr

/-- The page-context network: `none` models a rejected fetch. -/
def PageNetwork : Type := String → Option FetchResult

/-- The template-file URL `./components/NAME-template.html` that
`loadComponent` tries first. -/
def templateFileUrl (name : String) : String :=
  "./components/" ++ name ++ "-template.html"

/-- The fallback URL `./components/NAME.html`. -/
def componentFileUrl (name : String) : String :=
  "./components/" ++ name ++ ".html"

/-- The loader's observable state: the in-memory `componentCache` memo and
the number of network fetches performed so far. -/
structure LoaderState where
  componentCache : List (String × String)
  fetchCalls : Nat
deriving DecidableEq, Repr

/-- A fresh `ComponentLoader`: empty memo, no fetches. -/
def emptyLoaderState : LoaderState := { componentCache := [], fetchCalls := 0 }

/-- Embedding of `ComponentLoader.loadComponent`: serve from the in-memory
`componentCache` memo when present (no fetch, no write); otherwise fetch
`NAME-template.html`, and only if that responds non-ok fetch the
`NAME.html` fallback; a successful body is passed through
`extractComponentContent` — modelled by the parameter `extract`, since its
document branch runs the browser's `DOMParser` — then memoized under the
component name and returned; a rejected fetch, or two non-ok responses,
re-throws and memoizes nothing. -/
def loadComponent (extract : String → String → String) (net : PageNetwork)
    (name : String) (st : LoaderState) : Except Unit String × LoaderState :=
  match st.componentCache.lookup name with
  | some html => (Except.ok html, st)
  | none =>
    match net (templateFileUrl name) with
    | none => (Except.error (), { st with fetchCalls := st.fetchCalls + 1 })
    | some r1 =>
      if r1.ok then
        (Except.ok (extract r1.body name),
          { componentCache := (name, extract r1.body name) :: st.componentCache,
            fetchCalls := st.fetchCalls + 1 })
      else
        match net (componentFileUrl name) with
        | none => (Except.error (), { st with fetchCalls := st.fetchCalls + 2 })
        | some r2 =>
          if r2.ok then
            (Except.ok (extract r2.body name),
              { componentCache := (name, extract r2.body name) :: st.componentCache,
                fetchCalls := st.fetchCalls + 2 })
          else (Except.error (), { st with fetchCalls := st.fetchCalls + 2 })

theorem loadComponent_memo_hit (extract : String → String → String)
    (net : PageNetwork) (name : String) (st : LoaderState) (html : String)
    (h : st.componentCache.lookup name = some html) :
    loadComponent extract net name st = (Except.ok html, st) := by
  unfold loadComponent
  rw [h]

/-- C9: starting from a state with no memo entry for the component, when
the template-file fetch succeeds the first `loadComponent` call performs
exactly one fetch and memoizes the extracted markup; an immediately
following call for the same name returns identical markup, performs no
fetch and writes nothing (the state is unchanged), so the two calls
together perform exactly one network fetch. -/
theorem c9_load_component_memoized (extract : String → String → String)
    (net : PageNetwork) (name : String) (st0 : LoaderState) (r : FetchResult)
    (hmiss : st0.componentCache.lookup name = none)
    (hnet : net (templateFileUrl name) = some r) (hok : r.ok = true) :
    (loadComponent extract net name st0).1 = Except.ok (extract r.body name) ∧
    (loadComponent extract net name (loadComponent extract net name st0).2).1 =
      (loadComponent extract net name st0).1 ∧
    (loadComponent extract net name st0).2.fetchCalls = st0.fetchCalls + 1 ∧
    (loadComponent extract net name (loadComponent extract net name st0).2).2 =
      (loadComponent extract net name st0).2 := by
  have h1 : loadComponent extract net name st0 =
      (Except.ok (extract r.body name),
        { componentCache := (name, extract r.body name) :: st0.componentCache,
          fetchCalls := st0.fetchCalls + 1 }) := by
    unfold loadComponent
    rw [hmiss, hnet]
    simp [hok]
  have h2 : loadComponent extract net name
      { componentCache := (name, extract r.body name) :: st0.componentCache,
        fetchCalls := st0.fetchCalls + 1 } =
      (Except.ok (extract r.body name),
        { componentCache := (name, extract r.body name) :: st0.componentCache,
          fetchCalls := st0.fetchCalls + 1 }) := by
    apply loadComponent_memo_hit
    simp [List.lookup]
  rw [h1, h2]
  exact ⟨rfl, rfl, rfl, rfl⟩

/-- A page network serving only the header template file. -/
def netHeaderTemplate : PageNetwork :=
  fun u =>
    if u = "./components/header-template.html" then
      some { ok := true, body := "<nav>header</nav>" }
    else none

/-- C9 witness: two `loadComponent "header"` calls from a fresh loader over
a network serving the header template — identical markup, one fetch in
total, second call leaves the state untouched. -/
theorem c9_witness :
    (loadComponent (fun b _ => b) netHeaderTemplate "header" emptyLoaderState).1 =
      Except.ok "<nav>header</nav>" ∧
    (loadComponent (fun b _ => b) netHeaderTemplate "header"
        (loadComponent (fun b _ => b) netHeaderTemplate "header" emptyLoaderState).2).1 =
      (loadComponent (fun b _ => b) netHeaderTemplate "header" emptyLoaderState).1 ∧
    (loadComponent (fun b _ => b) netHeaderTemplate "header" emptyLoaderState).2.fetchCalls =
      emptyLoaderState.fetchCalls + 1 ∧
    (loadComponent (fun b _ => b) netHeaderTemplate "header"
        (loadComponent (fun b _ => b) netHeaderTemplate "header" emptyLoaderState).2).2 =
      (loadComponent (fun b _ => b) netHeaderTemplate "header" emptyLoaderState).2 :=
  c9_load_component_memoized (fun b _ => b) netHeaderTemplate "header"
    emptyLoaderState { ok := true, body := "<nav>header</nav>" } rfl (by decide) rfl

/-- JavaScript's regex whitespace class, as matched by the backslash-s in
the placeholder regex of `processComponentTemplate`. -/
def isJsSpace (c : Char) : Bool :=
  c = ' ' || c = '\t' || c = '\n' || c = '\r' || c = '\x0b' || c = '\x0c' ||
  c.toNat = 0xa0 || c.toNat = 0x1680 ||
  (0x2000 ≤ c.toNat && c.toNat ≤ 0x200a) ||
  c.toNat = 0x2028 || c.toNat = 0x2029 || c.toNat = 0x202f ||
  c.toNat = 0x205f || c.toNat = 0x3000 || c.toNat = 0xfeff

/-- The opening brace character. -/
def lbrace : Char := '\x7b'

/-- The closing brace character. -/
def rbrace : Char := '\x7d'

/-- Match the literal character list `pat` at the head of the second list,
returning the remainder on success. -/
def stripLit : List Char → List Char → Option (List Char)
  | [], l => some l
  | _ :: _, [] => none
  | p :: ps, c :: cs => if p = c then stripLit ps cs else none

/-- Match, at the head of `l`, one occurrence of the placeholder pattern of
`processComponentTemplate` — two opening braces, whitespace, the key,
whitespace, two closing braces — returning the remainder on success.
Faithful to the source regex for keys that contain no whitespace and no
regex metacharacters, as JSON object keys in this codebase are. -/
def matchPlaceholder (key : List Char) (l : List Char) : Option (List Char) :=
  match l with
  | c1 :: c2 :: rest =>
    if c1 = lbrace ∧ c2 = lbrace then
      match stripLit key (rest.dropWhile isJsSpace) with
      | none => none
      | some rest2 =>
        match rest2.dropWhile isJsSpace with
        | d1 :: d2 :: rest3 =>
          if d1 = rbrace ∧ d2 = rbrace then some rest3 else none
        | _ => none
    else none
  | _ => none

/-- Fuelled left-to-right scan implementing the global (`g`-flag) regex
replacement: at each position, replace a placeholder match and continue
after it (the inserted value is not rescanned), otherwise keep the
character and advance. The fuel is the input length, which each step
strictly exceeds the consumed portion of, so it never runs out. -/
def replaceAux (key val : List Char) : Nat → List Char → List Char
  | 0, l => l
  | _ + 1, [] => []
  | fuel + 1, c :: rest =>
    match matchPlaceholder key (c :: rest) with
    | some r => val ++ replaceAux key val fuel r
    | none => c :: replaceAux key val fuel rest

/-- Embedding of one `processedTemplate.replace(placeholder, data[key])`
step of `processComponentTemplate`, with the replacement value inserted
verbatim (none of the values involved contain the dollar escapes of
`String.prototype.replace`). -/
def replacePlaceholder (key val s : String) : String :=
  String.mk (replaceAux key.toList val.toList s.toList.length s.toList)

/-- Embedding of `ComponentLoader.processComponentTemplate`: a falsy
`dataString` (`none`) returns the template unchanged; a `JSON.parse`
failure (`Except.error`) is caught and returns the template verbatim;
otherwise each key of the parsed object, in order, has all its placeholder
occurrences replaced by its value. -/
def processComponentTemplate (template : String)
    (dataString : Option (Except Unit (List (String × String)))) : String :=
  match dataString with
  | none => template
  | some (Except.error _) => template
  | some (Except.ok data) =>
    data.foldl (fun t kv => replacePlaceholder kv.1 kv.2 t) template

/-- C10: template substitution replaces every placeholder occurrence of a
present key, tolerating whitespace inside the braces; a template whose
placeholder key is absent from the data — in particular under the empty
data object — is left unchanged; and a malformed data string (falsy or
failing `JSON.parse`) returns the unsubstituted template verbatim. -/
theorem c10_template_substitution :
    processComponentTemplate "<p>\x7b\x7bname\x7d\x7d</p>"
      (some (Except.ok [("name", "Naruto")])) = "<p>Naruto</p>" ∧
    processComponentTemplate "<p>\x7b\x7b  name \x7d\x7d</p>"
      (some (Except.ok [("name", "Naruto")])) = "<p>Naruto</p>" ∧
    processComponentTemplate "\x7b\x7bname\x7d\x7d and \x7b\x7b name \x7d\x7d"
      (some (Except.ok [("name", "Naruto")])) = "Naruto and Naruto" ∧
    (∀ template : String,
      processComponentTemplate template (some (Except.ok [])) = template) ∧
    processComponentTemplate "<p>\x7b\x7bname\x7d\x7d</p>"
      (some (Except.ok [("other", "X")])) = "<p>\x7b\x7bname\x7d\x7d</p>" ∧
    (∀ template : String,
      processComponentTemplate template (some (Except.error ())) = template) ∧
    (∀ template : String,
      processComponentTemplate template none = template) := by
  refine ⟨by decide, by decide, by decide, fun _ => rfl, by decide,
    fun _ => rfl, fun _ => rfl⟩

end StartAnime
